import Mathlib

/-!
# Verification of the napari scale-bar length-selection algorithm

Shallow embedding of `napari/_vispy/vispy_scale_bar_visual.py`
(`VispyScaleBarVisual._calculate_best_length` and
`VispyScaleBarVisual._on_zoom_change`) over exact rational arithmetic.

Modelling decisions:

* Python floats are modelled by `ℚ`.  All quantities appearing in the
  algorithm (pixel lengths, zoom scales, magnitudes) are finite rationals,
  so the arithmetic of the source is reproduced exactly.
* A pint `Quantity` in the length dimension is modelled by a magnitude
  together with an integer exponent `e`, meaning `magnitude * 10^e` base
  units (the compact SI units produced by `to_compact` are exactly the
  powers `10^(3k)` of the base unit).  `self._quantity`, the quantity
  parsed from the unit string, has magnitude `1` and exponent `0`.
* `pint.Quantity.to_compact` and `bisect.bisect_left` are library code not
  present in the repository; they are modelled from the spec (see their
  doc comments).
* The mutable fields touched by `_on_zoom_change` (`self._scale`,
  `self.node.transform.scale[0]`, `self.text_node.text`) are collected in
  a `BarState` record and the handler becomes a state-transition function.
-/

namespace NapariScaleBar

/-- `PREFERRED_VALUES` from `napari/utils/_units.py` (not in the excerpt;
per the spec it is the strictly increasing table `1, 2, 5, 10, 20, 50,
100, 200, 500` of "nice" magnitudes used by the snapping step). -/
def PREFERRED_VALUES : List ℚ := [1, 2, 5, 10, 20, 50, 100, 200, 500]

/-- A pint quantity of the length dimension: `magnitude * 10^exponent`
base units.  `exponent = 0` is the base unit chosen by the user (for
example "um"); `to_compact` only ever moves to units `10^(3k)` of it. -/
structure Quantity where
  magnitude : ℚ
  exponent : ℤ
deriving DecidableEq, Repr

/-- The value of a quantity expressed in the base unit (common-unit
conversion). -/
def valueInBase (q : Quantity) : ℚ := q.magnitude * (10 : ℚ) ^ q.exponent

/-- Modelled from the spec: `bisect.bisect_left` (Python standard
library, not part of the repository).  On a sorted list it returns the
left insertion index of `x`, i.e. the length of the prefix of elements
strictly below `x`. -/
def bisect_left : List ℚ → ℚ → ℕ
  | [], _ => 0
  | v :: rest, x => if v < x then bisect_left rest x + 1 else 0

/-- The index selection of `_calculate_best_length` lines 130–134:
`index = bisect.bisect_left(PREFERRED_VALUES, m); if index > 0: index -= 1`. -/
def snapIndex (x : ℚ) : ℕ :=
  let index := bisect_left PREFERRED_VALUES x
  if 0 < index then index - 1 else index

/-- `new_value = PREFERRED_VALUES[index]` (line 135). -/
def snapValue (x : ℚ) : ℚ := PREFERRED_VALUES.getD (snapIndex x) 0

/-- Modelled from the spec: `pint.Quantity.to_compact` (library code not
in the repository).  The spec: "choose the unit in the same dimension
that makes the magnitude fall in a conventional human-friendly range
(prefer magnitudes roughly in [1, 1000))"; SI prefixes step in powers of
`10^3`, so the chosen exponent is `3 * ⌊log10 |w| / 3⌋` and the returned
magnitude is `w / 10^exponent`.  A zero magnitude is returned unchanged
(pint returns `self` in that case). -/
def to_compact (w : ℚ) : ℚ × ℤ :=
  if w = 0 then (w, 0)
  else
    let p : ℤ := 3 * (Int.log 10 |w| / 3)
    (w / (10 : ℚ) ^ p, p)

/-- `VispyScaleBarVisual._calculate_best_length` (lines 106–142) with
`self._quantity = 1 * baseUnit`.  `desired_length` is the desired world
size in base units; the result is the snapped world length in base units
and the display quantity.  ℚ's division is total, so this total model is
exact exactly where no divisor in the source is zero, i.e. for
`desired_length ≠ 0`; at zero world length the Python source instead
raises `ZeroDivisionError` at the `factor` division (line 127).  That
error path is modelled separately by `computeDisplayLengthE`. -/
def calculate_best_length (desired_length : ℚ) : ℚ × Quantity :=
  let current_magnitude := desired_length
  let mp := to_compact current_magnitude
  let factor := current_magnitude / mp.1
  let new_value := snapValue mp.1
  let new_length := new_value * factor / 1
  (new_length, ⟨new_value, mp.2⟩)

/-- The spec's `computeDisplayLength`: the computational core of
`_on_zoom_change` (lines 155–166).  `target_world = scale * desired`,
snap via `_calculate_best_length`, convert the snapped world length back
to canvas pixels by dividing by the scale.  Returns
`(correctedPixelLength, displayQuantity)`. -/
def computeDisplayLength (desired_pixel_length scale_canvas2world : ℚ) :
    ℚ × Quantity :=
  let target_world_pixels := scale_canvas2world * desired_pixel_length
  let r := calculate_best_length target_world_pixels
  (r.1 / scale_canvas2world, r.2)

/-- `self._target_length = 150` (line 32). -/
def target_length : ℚ := 150

/-- The redraw-skip tolerance of `_on_zoom_change` line 151:
`abs(np.log10(a) - np.log10(b)) < 1e-4`.  Over exact rationals this is
equivalent (for positive `a`, `b`) to `(a/b)^10000 < 10 ∧ (b/a)^10000 < 10`,
which is decidable; floating-point rounding of `np.log10` is not
modelled. -/
def closeScale (a b : ℚ) : Bool :=
  decide ((a / b) ^ (10000 : ℕ) < 10 ∧ (b / a) ^ (10000 : ℕ) < 10)

/-- The mutable state touched by `_on_zoom_change`: the cached scale
`self._scale`, the bar-transform x-scale `self.node.transform.scale[0]`,
and the label `self.text_node.text` (modelled as the quantity it
renders). -/
structure BarState where
  scale : ℚ
  nodeScaleX : ℚ
  text : Quantity
deriving DecidableEq, Repr

/-- `VispyScaleBarVisual._on_zoom_change` (lines 144–178) as a state
transition.  `visible` is `self._viewer.scale_bar.visible`, `sign` is
`±1` from the scale-bar position, `zoom` is `self._viewer.camera.zoom`. -/
def on_zoom_change (visible : Bool) (sign zoom : ℚ) (force : Bool)
    (st : BarState) : BarState :=
  if !visible then st
  else
    let scale := 1 / zoom
    if closeScale st.scale scale && !force then st
    else
      let st1 : BarState := { st with scale := scale }
      let r := computeDisplayLength target_length st1.scale
      { st1 with nodeScaleX := sign * r.1, text := r.2 }

/-- The snapping rule in the words of the claim under test: the largest
element of `PREFERRED_VALUES` less than or equal to `x`, and the
smallest element when `x` is below all of them.  (Spec-side definition,
to be compared with the source-side `snapValue`.) -/
def snapLeSpec (x : ℚ) : ℚ :=
  PREFERRED_VALUES.foldl (fun acc v => if v ≤ x then v else acc)
    (PREFERRED_VALUES.getD 0 0)

/-- The amended snapping rule: the largest element of `PREFERRED_VALUES`
strictly less than `x`, and the smallest element when no element is
strictly below `x`.  (Spec-side definition, to be compared with the
source-side `snapValue`.) -/
def snapLtSpec (x : ℚ) : ℚ :=
  PREFERRED_VALUES.foldl (fun acc v => if v < x then v else acc)
    (PREFERRED_VALUES.getD 0 0)

/-! ## Basic facts about the snapping step -/

set_option maxHeartbeats 1000000 in
/-- Closed form of the insertion index on the preferred-value table:
ten ordered threshold regions. -/
theorem bisect_left_PV (x : ℚ) : bisect_left PREFERRED_VALUES x =
    if 500 < x then 9 else if 200 < x then 8 else if 100 < x then 7
    else if 50 < x then 6 else if 20 < x then 5 else if 10 < x then 4
    else if 5 < x then 3 else if 2 < x then 2 else if 1 < x then 1
    else 0 := by
  simp only [PREFERRED_VALUES, bisect_left]
  split_ifs <;> first | rfl | (exfalso; linarith)

set_option maxHeartbeats 1000000 in
/-- Closed form of the snapping step: nine ordered threshold regions. -/
theorem snapValue_eq_closed (x : ℚ) : snapValue x =
    if 500 < x then 500 else if 200 < x then 200 else if 100 < x then 100
    else if 50 < x then 50 else if 20 < x then 20 else if 10 < x then 10
    else if 5 < x then 5 else if 2 < x then 2 else 1 := by
  simp only [snapValue, snapIndex]
  rw [bisect_left_PV]
  split_ifs <;> first | decide | omega

set_option maxHeartbeats 1000000 in
theorem snapValue_mono {x y : ℚ} (h : x ≤ y) : snapValue x ≤ snapValue y := by
  rw [snapValue_eq_closed, snapValue_eq_closed]
  split_ifs <;> linarith

theorem snapValue_mem (x : ℚ) : snapValue x ∈ PREFERRED_VALUES := by
  rw [snapValue_eq_closed, PREFERRED_VALUES]
  split_ifs <;> simp

theorem one_le_snapValue (x : ℚ) : 1 ≤ snapValue x := by
  rw [snapValue_eq_closed]; split_ifs <;> norm_num

theorem snapValue_le_500 (x : ℚ) : snapValue x ≤ 500 := by
  rw [snapValue_eq_closed]; split_ifs <;> norm_num

set_option maxHeartbeats 1000000 in
theorem snapLtSpec_eq_snapValue (x : ℚ) : snapLtSpec x = snapValue x := by
  rw [snapValue_eq_closed]
  simp only [snapLtSpec, PREFERRED_VALUES, List.foldl, List.getD_cons_zero]
  split_ifs <;> rfl


/-! ## Facts about the compact normalization -/

theorem to_compact_snd {w : ℚ} (hw : w ≠ 0) :
    (to_compact w).2 = 3 * (Int.log 10 |w| / 3) := by
  simp [to_compact, hw]

theorem to_compact_fst {w : ℚ} (hw : w ≠ 0) :
    (to_compact w).1 = w / (10 : ℚ) ^ (to_compact w).2 := by
  simp [to_compact, hw]

/-- The conversion factor of line 127 (`factor = current / new`) equals
`10^p` exactly, where `p` is the compact exponent. -/
theorem factor_eq {w : ℚ} (hw : w ≠ 0) :
    w / (to_compact w).1 = (10 : ℚ) ^ (to_compact w).2 := by
  rw [to_compact_fst hw]
  have h10 : ((10 : ℚ) ^ (to_compact w).2) ≠ 0 := by positivity
  field_simp

/-- The compact exponent sits within two decades below the magnitude's
order of magnitude. -/
theorem exp_near_log {w : ℚ} (hw : w ≠ 0) :
    (to_compact w).2 ≤ Int.log 10 |w| ∧
      Int.log 10 |w| ≤ (to_compact w).2 + 2 := by
  rw [to_compact_snd hw]
  omega

/-- For a positive magnitude, the compact magnitude lies in `[1, 1000)`:
the spec's "conventional human-friendly range". -/
theorem compact_mag_bounds {w : ℚ} (hw : 0 < w) :
    1 ≤ (to_compact w).1 ∧ (to_compact w).1 < 1000 := by
  have hw' : w ≠ 0 := ne_of_gt hw
  have habs : |w| = w := abs_of_pos hw
  obtain ⟨hpl, hlp⟩ := exp_near_log hw'
  rw [habs] at hpl hlp
  have h1 : (10 : ℚ) ^ Int.log 10 w ≤ w := by
    have := Int.zpow_log_le_self (show 1 < 10 by norm_num) hw
    exact_mod_cast this
  have h2 : w < (10 : ℚ) ^ (Int.log 10 w + 1) := by
    have := Int.lt_zpow_succ_log_self (show 1 < 10 by norm_num) w
    exact_mod_cast this
  have hppos : (0 : ℚ) < (10 : ℚ) ^ (to_compact w).2 := by positivity
  rw [to_compact_fst hw']
  constructor
  · rw [le_div_iff₀ hppos, one_mul]
    calc (10 : ℚ) ^ (to_compact w).2 ≤ (10 : ℚ) ^ Int.log 10 w :=
          zpow_le_zpow_right₀ (by norm_num) hpl
      _ ≤ w := h1
  · rw [div_lt_iff₀ hppos]
    calc w < (10 : ℚ) ^ (Int.log 10 w + 1) := h2
      _ ≤ (10 : ℚ) ^ ((to_compact w).2 + 3) :=
          zpow_le_zpow_right₀ (by norm_num) (by omega)
      _ = 1000 * (10 : ℚ) ^ (to_compact w).2 := by
          rw [zpow_add₀ (by norm_num : (10 : ℚ) ≠ 0)]
          ring_nf

theorem exp_mono {w₁ w₂ : ℚ} (h1 : 0 < w₁) (h12 : w₁ ≤ w₂) :
    (to_compact w₁).2 ≤ (to_compact w₂).2 := by
  have h2 : 0 < w₂ := lt_of_lt_of_le h1 h12
  rw [to_compact_snd (ne_of_gt h1), to_compact_snd (ne_of_gt h2)]
  have hlog : Int.log 10 |w₁| ≤ Int.log 10 |w₂| := by
    rw [abs_of_pos h1, abs_of_pos h2]
    exact Int.log_mono_right h1 h12
  omega

/-- Core monotonicity: the snapped value converted to the base unit is
monotone in the world length. -/
theorem snappedBase_mono {w₁ w₂ : ℚ} (h1 : 0 < w₁) (h12 : w₁ ≤ w₂) :
    snapValue (to_compact w₁).1 * (10 : ℚ) ^ (to_compact w₁).2 ≤
      snapValue (to_compact w₂).1 * (10 : ℚ) ^ (to_compact w₂).2 := by
  have h2 : 0 < w₂ := lt_of_lt_of_le h1 h12
  have hpmono := exp_mono h1 h12
  have hp1pos : (0 : ℚ) < (10 : ℚ) ^ (to_compact w₁).2 := by positivity
  have hp2pos : (0 : ℚ) < (10 : ℚ) ^ (to_compact w₂).2 := by positivity
  rcases eq_or_lt_of_le hpmono with heq | hlt
  · -- same compact unit: compare magnitudes directly
    have hm : (to_compact w₁).1 ≤ (to_compact w₂).1 := by
      rw [to_compact_fst (ne_of_gt h1), to_compact_fst (ne_of_gt h2), ← heq]
      exact div_le_div_of_nonneg_right h12 hp1pos.le
    rw [← heq]
    exact mul_le_mul_of_nonneg_right (snapValue_mono hm) hp1pos.le
  · -- strictly larger compact unit: it jumps by at least 10^3
    have hstep : (to_compact w₁).2 + 3 ≤ (to_compact w₂).2 := by
      rw [to_compact_snd (ne_of_gt h1)] at hlt ⊢
      rw [to_compact_snd (ne_of_gt h2)] at hlt ⊢
      omega
    calc snapValue (to_compact w₁).1 * (10 : ℚ) ^ (to_compact w₁).2
        ≤ 500 * (10 : ℚ) ^ (to_compact w₁).2 :=
          mul_le_mul_of_nonneg_right (snapValue_le_500 _) hp1pos.le
      _ ≤ 1000 * (10 : ℚ) ^ (to_compact w₁).2 := by linarith
      _ = (10 : ℚ) ^ ((to_compact w₁).2 + 3) := by
          rw [zpow_add₀ (by norm_num : (10 : ℚ) ≠ 0)]
          ring_nf
      _ ≤ (10 : ℚ) ^ (to_compact w₂).2 :=
          zpow_le_zpow_right₀ (by norm_num) hstep
      _ ≤ snapValue (to_compact w₂).1 * (10 : ℚ) ^ (to_compact w₂).2 :=
          le_mul_of_one_le_left hp2pos.le (one_le_snapValue _)

/-! ## Evaluation helpers -/

theorem bisect_left_le_length (l : List ℚ) (x : ℚ) :
    bisect_left l x ≤ l.length := by
  induction l with
  | nil => simp [bisect_left]
  | cons v rest ih =>
    simp only [bisect_left, List.length_cons]
    split_ifs <;> omega

theorem natLog10_150 : Nat.log 10 150 = 2 :=
  Nat.log_eq_of_pow_le_of_lt_pow (by norm_num) (by norm_num)

theorem natLog10_100 : Nat.log 10 100 = 2 :=
  Nat.log_eq_of_pow_le_of_lt_pow (by norm_num) (by norm_num)

theorem to_compact_150 : to_compact (150 : ℚ) = (150, 0) := by
  rw [to_compact]
  norm_num [natLog10_150]

theorem to_compact_100 : to_compact (100 : ℚ) = (100, 0) := by
  rw [to_compact]
  norm_num [natLog10_100]

theorem to_compact_neg150 : to_compact (-150 : ℚ) = (-150, 0) := by
  rw [to_compact]
  norm_num [natLog10_150]

/-- The display magnitude is always drawn from the preferred-value
table, for every input whatsoever (the snapped index is always in
range). -/
theorem displayMagnitude_mem (d s : ℚ) :
    (computeDisplayLength d s).2.magnitude ∈ PREFERRED_VALUES := by
  simp only [computeDisplayLength, calculate_best_length]
  exact snapValue_mem _

/-- Modelled from the spec: the defensive input validation the spec
ascribes to `computeDisplayLength` ("fails with `InvalidInputError` if
`desiredPixelLength <= 0` or `scaleCanvasToWorld <= 0`").  Spec-side
definition, to be compared with the source, which performs no such
check. -/
inductive InputError where
  | invalidInput
deriving DecidableEq, Repr

/-- Modelled from the spec: `computeDisplayLength` as the spec describes
it, rejecting non-positive inputs before running the selection
algorithm. -/
def computeDisplayLengthChecked (d s : ℚ) : Except InputError (ℚ × Quantity) :=
  if d ≤ 0 ∨ s ≤ 0 then Except.error InputError.invalidInput
  else Except.ok (computeDisplayLength d s)

/-- `ZeroDivisionError`: Python float division with a zero divisor
raises this (it does not produce IEEE NaN/inf). -/
inductive PyError where
  | zeroDivision
deriving DecidableEq, Repr

/-- Error-aware rendering of `computeDisplayLength`.  The source
performs two divisions whose divisors can be zero: line 127,
`factor = current_quantity / new_quantity`, divides by the compact
magnitude — zero exactly when the world length `s * d` is zero, since
pint's `to_compact` returns a zero quantity unchanged — and line 165
divides by the scale.  Python raises an uncaught `ZeroDivisionError` at
the first such division; this variant returns
`Except.error PyError.zeroDivision` in exactly those cases (guards in
source order) and the total model's value elsewhere, where the total
model is exact. -/
def computeDisplayLengthE (d s : ℚ) : Except PyError (ℚ × Quantity) :=
  let target_world_pixels := s * d
  if (to_compact target_world_pixels).1 = 0 then
    Except.error PyError.zeroDivision
  else if s = 0 then Except.error PyError.zeroDivision
  else Except.ok (computeDisplayLength d s)

theorem to_compact_zero : to_compact (0 : ℚ) = (0, 0) := by
  simp [to_compact]

theorem compact_fst_ne_zero {w : ℚ} (hw : w ≠ 0) : (to_compact w).1 ≠ 0 := by
  rw [to_compact_fst hw]
  exact div_ne_zero hw (by positivity)

/-! ## Claims -/

/-- C1 (counterexample): the claim says the snapping step selects the
largest preferred value less than *or equal to* the normalized
magnitude.  At `desiredPixelLength = 100`, `scaleCanvasToWorld = 1` the
normalized magnitude is exactly `100`, an element of the table; the
largest element `≤ 100` is `100` itself, but the code (`bisect_left`
followed by the guarded decrement) selects `50`. -/
theorem C1_counterexample :
    (computeDisplayLength 100 1).2.magnitude = 50 ∧
      snapLeSpec ((to_compact ((1 : ℚ) * 100)).1) = 100 ∧
      (computeDisplayLength 100 1).2.magnitude ≠
        snapLeSpec ((to_compact ((1 : ℚ) * 100)).1) := by
  have h : to_compact ((1 : ℚ) * 100) = (100, 0) := by
    rw [one_mul]; exact to_compact_100
  refine ⟨?_, ?_, ?_⟩
  · simp only [computeDisplayLength, calculate_best_length, h,
      snapValue_eq_closed]
    norm_num
  · rw [h]
    norm_num [snapLeSpec, PREFERRED_VALUES]
  · simp only [computeDisplayLength, calculate_best_length, h,
      snapValue_eq_closed]
    norm_num [snapLeSpec, PREFERRED_VALUES]

/-- C1 (amended): for every valid input the snapping step selects the
largest element of `PREFERRED_VALUES` *strictly less than* the
normalized magnitude, falling back to the smallest element when no
element is strictly below it (in particular whenever the magnitude is
smaller than or equal to the smallest element). -/
theorem C1_snap_rule (d s : ℚ) (hd : 0 < d) (hs : 0 < s) :
    (computeDisplayLength d s).2.magnitude =
      snapLtSpec ((to_compact (s * d)).1) := by
  rw [snapLtSpec_eq_snapValue]
  simp only [computeDisplayLength, calculate_best_length]

/-- C1 witness: the amended rule at the spec's example input. -/
theorem C1_witness :
    (0 : ℚ) < 150 ∧ (0 : ℚ) < 1 ∧
      (computeDisplayLength 150 1).2.magnitude =
        snapLtSpec ((to_compact ((1 : ℚ) * 150)).1) :=
  ⟨by norm_num, by norm_num, C1_snap_rule 150 1 (by norm_num) (by norm_num)⟩

/-- C2 (counterexample): there is no input validation in
`_calculate_best_length` or `_on_zoom_change`.  On the non-positive
input `desiredPixelLength = -150` (scale `1`) the claim demands an
`InvalidInputError`, but the code (error-aware model) runs the pipeline
to completion — every divisor is nonzero — and returns the garbage
output `(1, 1 × baseUnit)`: a one-pixel bar labelled with the smallest
preferred value. -/
theorem C2_counterexample :
    computeDisplayLengthE (-150) 1 = Except.ok (1, ⟨1, 0⟩) ∧
      computeDisplayLengthChecked (-150) 1 =
        Except.error InputError.invalidInput := by
  constructor
  · have h : to_compact ((1 : ℚ) * -150) = (-150, 0) := by
      rw [one_mul]; exact to_compact_neg150
    simp only [computeDisplayLengthE, computeDisplayLength,
      calculate_best_length, h, snapValue_eq_closed]
    norm_num
  · norm_num [computeDisplayLengthChecked]

/-- C2 (amended): the code contains no input validation and no
`InvalidInputError` exists.  On the non-positive domain: when the world
length `s * d` is nonzero (e.g. a negative desired length), the pipeline
runs to completion with a snapped garbage output whose magnitude is
still drawn from `PREFERRED_VALUES`; when the world length is zero
(`d = 0` or `s = 0`), the unchecked division
`factor = current_quantity / new_quantity` has a zero divisor and the
code fails — with an uncaught `ZeroDivisionError`, not the claimed
`InvalidInputError`. -/
theorem C2_no_validation (d s : ℚ) (h : d ≤ 0 ∨ s ≤ 0) :
    (s * d ≠ 0 →
        computeDisplayLengthE d s = Except.ok (computeDisplayLength d s) ∧
          (computeDisplayLength d s).2.magnitude ∈ PREFERRED_VALUES) ∧
      (s * d = 0 →
        computeDisplayLengthE d s = Except.error PyError.zeroDivision) := by
  constructor
  · intro hw
    have hs : s ≠ 0 := left_ne_zero_of_mul hw
    refine ⟨?_, displayMagnitude_mem d s⟩
    simp only [computeDisplayLengthE]
    rw [if_neg (compact_fst_ne_zero hw), if_neg hs]
  · intro hw
    have h0 : to_compact (s * d) = (0, 0) := by rw [hw]; exact to_compact_zero
    simp [computeDisplayLengthE, h0]

/-- C2 witness: at `(-150, 1)` the code completes with a snapped output
instead of failing. -/
theorem C2_witness :
    ((-150 : ℚ) ≤ 0 ∨ (1 : ℚ) ≤ 0) ∧
      computeDisplayLengthE (-150) 1 =
          Except.ok (computeDisplayLength (-150) 1) ∧
        (computeDisplayLength (-150) 1).2.magnitude ∈ PREFERRED_VALUES :=
  ⟨Or.inl (by norm_num),
    (C2_no_validation (-150) 1 (Or.inl (by norm_num))).1 (by norm_num)⟩

/-- C3: for every positive desired pixel length and scale, the magnitude
of the returned display quantity is an element of `PREFERRED_VALUES`. -/
theorem C3_magnitude_mem (d s : ℚ) (hd : 0 < d) (hs : 0 < s) :
    (computeDisplayLength d s).2.magnitude ∈ PREFERRED_VALUES :=
  displayMagnitude_mem d s

/-- C3 witness at the spec's example input. -/
theorem C3_witness :
    (0 : ℚ) < 150 ∧ (0 : ℚ) < 1 ∧
      (computeDisplayLength 150 1).2.magnitude ∈ PREFERRED_VALUES :=
  ⟨by norm_num, by norm_num, C3_magnitude_mem 150 1 (by norm_num) (by norm_num)⟩

/-- C4: the spec's worked example.  With the preferred-value table,
base unit "um" (`exponent = 0`), `desiredPixelLength = 150` and
`scaleCanvasToWorld = 1`, the world length 150 µm stays at magnitude 150
under compaction, snaps to 100, and the corrected pixel length is
`150 * (100/150) = 100`. -/
theorem C4_example : computeDisplayLength 150 1 = (100, ⟨100, 0⟩) := by
  have h : to_compact ((1 : ℚ) * 150) = (150, 0) := by
    rw [one_mul]; exact to_compact_150
  simp only [computeDisplayLength, calculate_best_length, h,
    snapValue_eq_closed]
  norm_num

/-- C5: holding the desired pixel length fixed, a larger
canvas-to-world scale never yields a smaller display magnitude once
both are converted to the common base unit. -/
theorem C5_monotone (d s₁ s₂ : ℚ) (hd : 0 < d) (hs₁ : 0 < s₁)
    (h12 : s₁ < s₂) :
    valueInBase (computeDisplayLength d s₁).2 ≤
      valueInBase (computeDisplayLength d s₂).2 := by
  have hw1 : 0 < s₁ * d := mul_pos hs₁ hd
  have hw12 : s₁ * d ≤ s₂ * d :=
    mul_le_mul_of_nonneg_right h12.le hd.le
  simp only [computeDisplayLength, calculate_best_length, valueInBase]
  exact snappedBase_mono hw1 hw12

/-- C5 witness: doubling the scale at the example input. -/
theorem C5_witness :
    (0 : ℚ) < 150 ∧ (0 : ℚ) < 1 ∧ (1 : ℚ) < 2 ∧
      valueInBase (computeDisplayLength 150 1).2 ≤
        valueInBase (computeDisplayLength 150 2).2 :=
  ⟨by norm_num, by norm_num, by norm_num,
    C5_monotone 150 1 2 (by norm_num) (by norm_num) (by norm_num)⟩

/-- C6: for every valid input the corrected pixel length is strictly
positive (and, being a rational in this exact model, finite). -/
theorem C6_corrected_positive (d s : ℚ) (hd : 0 < d) (hs : 0 < s) :
    0 < (computeDisplayLength d s).1 := by
  have hw : 0 < s * d := mul_pos hs hd
  have hfac := factor_eq (ne_of_gt hw)
  simp only [computeDisplayLength, calculate_best_length]
  rw [hfac]
  have h1 : (0 : ℚ) < snapValue (to_compact (s * d)).1 :=
    lt_of_lt_of_le zero_lt_one (one_le_snapValue _)
  have h2 : (0 : ℚ) < (10 : ℚ) ^ (to_compact (s * d)).2 := by positivity
  exact div_pos (div_pos (mul_pos h1 h2) one_pos) hs

/-- C6 witness at the spec's example input. -/
theorem C6_witness :
    (0 : ℚ) < 150 ∧ (0 : ℚ) < 1 ∧ 0 < (computeDisplayLength 150 1).1 :=
  ⟨by norm_num, by norm_num,
    C6_corrected_positive 150 1 (by norm_num) (by norm_num)⟩

/-- C7: an input below the smallest table entry snaps to the smallest
entry, and the index used to read `PREFERRED_VALUES` is always in
range, so the guarded decrement can never produce the negative index
whose Python semantics would wrap around to the last element. -/
theorem C7_no_wraparound (x : ℚ) :
    snapIndex x < PREFERRED_VALUES.length ∧
      (x < PREFERRED_VALUES.getD 0 0 →
        snapValue x = PREFERRED_VALUES.getD 0 0) := by
  constructor
  · have hb := bisect_left_le_length PREFERRED_VALUES x
    have hlen : PREFERRED_VALUES.length = 9 := rfl
    rw [hlen] at hb ⊢
    simp only [snapIndex]
    split_ifs <;> omega
  · intro h
    have h0 : PREFERRED_VALUES.getD 0 0 = 1 := rfl
    rw [h0] at h ⊢
    rw [snapValue_eq_closed]
    split_ifs <;> first | rfl | linarith

/-- C7 witness: a magnitude of 1/2, below the whole table. -/
theorem C7_witness :
    snapIndex (1 / 2) < PREFERRED_VALUES.length ∧
      snapValue (1 / 2) = PREFERRED_VALUES.getD 0 0 :=
  ⟨(C7_no_wraparound (1 / 2)).1,
    (C7_no_wraparound (1 / 2)).2 (by norm_num [PREFERRED_VALUES])⟩

/-- C8: calling `computeDisplayLength` twice with identical inputs
yields identical outputs.  The source reads only its arguments and the
immutable `self._quantity` (part of the modelled input), so the
embedding is a pure function and the property is definitional. -/
theorem C8_deterministic (d₁ d₂ s₁ s₂ : ℚ) (hd : d₁ = d₂) (hs : s₁ = s₂) :
    computeDisplayLength d₁ s₁ = computeDisplayLength d₂ s₂ := by
  rw [hd, hs]

/-- C8 witness at the example input. -/
theorem C8_witness :
    (150 : ℚ) = 150 ∧ (1 : ℚ) = 1 ∧
      computeDisplayLength 150 1 = computeDisplayLength 150 1 :=
  ⟨rfl, rfl, C8_deterministic 150 150 1 1 rfl rfl⟩

/-- C9: on a visible, non-forced zoom change, if the new scale is
within the log-tolerance of the cached scale the handler mutates
nothing at all (cached scale, bar transform and label all unchanged);
otherwise it updates the scale cache and writes exactly the two
outputs (bar-transform x-scale and label) computed by the selection
algorithm. -/
theorem C9_skip_or_update (st : BarState) (zoom sign : ℚ) :
    (closeScale st.scale (1 / zoom) = true →
        on_zoom_change true sign zoom false st = st) ∧
      (closeScale st.scale (1 / zoom) = false →
        on_zoom_change true sign zoom false st =
          ⟨1 / zoom,
            sign * (computeDisplayLength target_length (1 / zoom)).1,
            (computeDisplayLength target_length (1 / zoom)).2⟩) := by
  constructor <;> intro h <;> rw [one_div] at h <;> simp [on_zoom_change, h]

/-- C9 witness: equal scales are within tolerance, so the handler is a
no-op on a non-forced invocation. -/
theorem C9_witness :
    on_zoom_change true 1 1 false ⟨1, 5, ⟨1, 0⟩⟩ = ⟨1, 5, ⟨1, 0⟩⟩ :=
  (C9_skip_or_update ⟨1, 5, ⟨1, 0⟩⟩ 1 1).1 (by norm_num [closeScale])

/-- C10: while the scale bar is not visible, a zoom-change invocation
returns immediately and mutates nothing, even when `force` is set. -/
theorem C10_invisible_noop (sign zoom : ℚ) (force : Bool) (st : BarState) :
    on_zoom_change false sign zoom force st = st := by
  simp [on_zoom_change]

end NapariScaleBar
